import Mathlib

/-!
Verification of the litegrpc client transport layer (channel.cpp, status.cpp,
client_context.cpp, credentials.cpp, http2_client.cpp).

The C++ code is shallowly embedded: std::string byte payloads become List Nat,
header/metadata std::map containers become association lists with
insert-overwrite semantics, machine integers become Int with explicit range
checks where the code can overflow, and C++ exceptions thrown by std::stoi are
made explicit in the return type. Wall-clock queries (IsExpired) are taken as
an input of the model, since the embedding has no clock.
-/

/-! ## Association-list model of std::map

`mapInsert` is `m[key] = value` (overwrite or append), `mapFind` is `m.find(key)`.
Maps built only by `mapInsert` never hold duplicate keys.
-/

def mapInsert {α : Type} (m : List (String × α)) (k : String) (v : α) :
    List (String × α) :=
  match m with
  | [] => [(k, v)]
  | (k2, v2) :: rest =>
    if k2 = k then (k, v) :: rest else (k2, v2) :: mapInsert rest k v

def mapFind {α : Type} (m : List (String × α)) (k : String) : Option α :=
  match m with
  | [] => none
  | (k2, v2) :: rest => if k2 = k then some v2 else mapFind rest k

/-! ## Status and StatusCode (include/litegrpc/status.h, src/core/status.cpp)

`StatusCode` is a scoped C++ enum with underlying type int; values outside the
seventeen enumerators can be produced by `static_cast` (the ToString switch has
a default branch for exactly this), so the code field is modelled as Int.
-/

structure Status where
  code : Int
  message : String
deriving DecidableEq, Repr

def Status.OK : Status := ⟨0, ""⟩

def Status.ok (s : Status) : Bool := s.code == 0

def Status.invalidArgument (m : String) : Status := ⟨3, m⟩

def Status.deadlineExceeded (m : String) : Status := ⟨4, m⟩

def Status.internal (m : String) : Status := ⟨13, m⟩

def Status.unavailable (m : String) : Status := ⟨14, m⟩

/-- The switch statement inside Status::ToString (status.cpp lines 47-100):
each named case appends the symbolic code name, the default case appends
UNKNOWN_CODE(n). -/
def switchCodeName (c : Int) : String :=
  if c = 1 then "CANCELLED"
  else if c = 2 then "UNKNOWN"
  else if c = 3 then "INVALID_ARGUMENT"
  else if c = 4 then "DEADLINE_EXCEEDED"
  else if c = 5 then "NOT_FOUND"
  else if c = 6 then "ALREADY_EXISTS"
  else if c = 7 then "PERMISSION_DENIED"
  else if c = 8 then "RESOURCE_EXHAUSTED"
  else if c = 9 then "FAILED_PRECONDITION"
  else if c = 10 then "ABORTED"
  else if c = 11 then "OUT_OF_RANGE"
  else if c = 12 then "UNIMPLEMENTED"
  else if c = 13 then "INTERNAL"
  else if c = 14 then "UNAVAILABLE"
  else if c = 15 then "DATA_LOSS"
  else if c = 16 then "UNAUTHENTICATED"
  else "UNKNOWN_CODE(" ++ toString c ++ ")"

/-- Status::ToString (status.cpp lines 36-110): "OK" for success, otherwise an
ostringstream builds "Status(" then the switch name, then an optional
message segment, then ")". -/
def Status.ToString (s : Status) : String :=
  if s.ok then "OK"
  else
    "Status(" ++ switchCodeName s.code ++
      (if s.message = "" then "" else ", \"" ++ s.message ++ "\"") ++ ")"

/-- The symbolic status-code names as the spec lists them (spec section 3),
independent of the ToString switch; used to compare ToString against the
claimed rendering. -/
def specCodeNames : List (Int × String) :=
  [(1, "CANCELLED"), (2, "UNKNOWN"), (3, "INVALID_ARGUMENT"),
   (4, "DEADLINE_EXCEEDED"), (5, "NOT_FOUND"), (6, "ALREADY_EXISTS"),
   (7, "PERMISSION_DENIED"), (8, "RESOURCE_EXHAUSTED"),
   (9, "FAILED_PRECONDITION"), (10, "ABORTED"), (11, "OUT_OF_RANGE"),
   (12, "UNIMPLEMENTED"), (13, "INTERNAL"), (14, "UNAVAILABLE"),
   (15, "DATA_LOSS"), (16, "UNAUTHENTICATED")]

/-! ## std::stoi (used by ParseTarget on the port text and by ExecuteRequest on
the grpc-status trailer value)

strtol base-10 semantics: skip C whitespace, optional sign, then a nonempty
digit run; no digits throws std::invalid_argument, a value outside int range
throws std::out_of_range. Thrown exceptions are the Except.error branch.
-/

def isSpaceC (c : Char) : Bool :=
  c == ' ' || c == '\t' || c == '\n' || c == '\x0b' || c == '\x0c' || c == '\r'

def natOfDigits (ds : List Char) : Nat :=
  ds.foldl (fun a c => a * 10 + (c.toNat - 48)) 0

def stoi (s : String) : Except String Int :=
  let cs := s.data.dropWhile isSpaceC
  let signed : Int × List Char :=
    match cs with
    | '+' :: r => (1, r)
    | '-' :: r => (-1, r)
    | _ => (1, cs)
  let ds := signed.2.takeWhile Char.isDigit
  if ds.isEmpty then Except.error "invalid_argument"
  else
    let v : Int := signed.1 * (natOfDigits ds : Int)
    if v < -2147483648 ∨ 2147483647 < v then Except.error "out_of_range"
    else Except.ok v

/-! ## Target parsing (channel.cpp lines 288-320)

LiteGrpcChannel::ParseTarget matches the whole target against the ECMAScript
regex  (?:([^:]+)://)?([^:]+)(?::([0-9]+))?  anchored at both ends.

The match decomposition is unique whenever it exists, so the regex is modelled
by a direct scanner:
- the scheme group, being a nonempty colon-free run followed by the literal
  "://", can only be the prefix up to the FIRST colon of the target, and only
  when that colon is followed by "//" (a shorter candidate would have to be
  followed by a colon that is in fact a non-colon character);
- when the first colon is followed by "//", the no-scheme alternative cannot
  match either, because the host group is colon-free and the port group would
  then have to match "//..." with digits;
- past the scheme, the host is the run up to the next colon and the port is
  the remaining digit run.
Hence backtracking order never matters and captures are deterministic.
-/

def hostPortMatch (cs : List Char) : Option (List Char × Option (List Char)) :=
  let h := cs.takeWhile (fun c => c != ':')
  let r := cs.dropWhile (fun c => c != ':')
  if h.isEmpty then none
  else
    match r with
    | [] => some (h, none)
    | ':' :: ds =>
      if ds.isEmpty then none
      else if ds.all Char.isDigit then some (h, some ds) else none
    | _ => none

def regexMatchTarget (t : String) :
    Option (Option String × String × Option String) :=
  let cs := t.data
  let p := cs.takeWhile (fun c => c != ':')
  let r := cs.dropWhile (fun c => c != ':')
  match r with
  | ':' :: '/' :: '/' :: rest =>
    if p.isEmpty then none
    else
      match hostPortMatch rest with
      | none => none
      | some (h, ds) =>
        some (some (String.mk p), String.mk h, ds.map String.mk)
  | _ =>
    match hostPortMatch cs with
    | none => none
    | some (h, ds) => some (none, String.mk h, ds.map String.mk)

inductive ParseOutcome where
  | ok (host : String) (port : Int) (useSsl : Bool)
  | err (s : Status)
  | exn (e : String)
deriving DecidableEq, Repr

/-- LiteGrpcChannel::ParseTarget. The credentials object only contributes its
IsSecure() bit, passed as `isSecure`. A failed regex match yields
InvalidArgument; an unknown scheme yields InvalidArgument; a missing port
defaults to 443/80 by the ssl flag; std::stoi on an oversized port run throws
(exn branch). -/
def parseTarget (isSecure : Bool) (target : String) : ParseOutcome :=
  match regexMatchTarget target with
  | none => ParseOutcome.err (Status.invalidArgument ("Invalid target format: " ++ target))
  | some (scheme, host, portStr) =>
    let sslRes : Except Status Bool :=
      match scheme with
      | none => Except.ok isSecure
      | some s =>
        if s = "http" then Except.ok false
        else if s = "https" then Except.ok true
        else Except.error (Status.invalidArgument ("Unsupported scheme: " ++ s))
    match sslRes with
    | Except.error st => ParseOutcome.err st
    | Except.ok ssl =>
      match portStr with
      | none => ParseOutcome.ok host (if ssl then 443 else 80) ssl
      | some ps =>
        match stoi ps with
        | Except.error e => ParseOutcome.exn e
        | Except.ok p => ParseOutcome.ok host p ssl

/-! ## ClientContext (src/core/client_context.cpp)

Per-call configuration. IsExpired compares the wall clock to the stored
deadline; the clock is outside the embedding, so the model carries the Boolean
outcome of that comparison in the `expired` field. AddMetadata (lines 34-36)
is a plain map assignment: no key transformation of any kind.
-/

structure ClientContext where
  metadata : List (String × String) := []
  expired : Bool := false
  authority : String := ""
  uaPrefixVal : String := ""
deriving DecidableEq, Repr

/-- ClientContext::AddMetadata: metadata_[key] = value. -/
def ClientContext.addMetadata (c : ClientContext) (k v : String) : ClientContext :=
  { c with metadata := mapInsert c.metadata k v }

/-! ## ChannelArguments (src/core/credentials.cpp lines 48-124)

Three independent key namespaces. The get accessors write through an out
pointer only when the key is found; the model passes the current contents of
the out location and returns the pair (found flag, out location afterwards).
Opaque void pointers are modelled as Nat handles.
-/

structure ChannelArguments where
  int_args : List (String × Int) := []
  string_args : List (String × String) := []
  pointer_args : List (String × Nat) := []
deriving DecidableEq, Repr

def ChannelArguments.setInt (a : ChannelArguments) (k : String) (v : Int) :
    ChannelArguments :=
  { a with int_args := mapInsert a.int_args k v }

def ChannelArguments.setString (a : ChannelArguments) (k v : String) :
    ChannelArguments :=
  { a with string_args := mapInsert a.string_args k v }

def ChannelArguments.setPointer (a : ChannelArguments) (k : String) (v : Nat) :
    ChannelArguments :=
  { a with pointer_args := mapInsert a.pointer_args k v }

def ChannelArguments.getInt (a : ChannelArguments) (k : String) (out : Int) :
    Bool × Int :=
  match mapFind a.int_args k with
  | some v => (true, v)
  | none => (false, out)

def ChannelArguments.getString (a : ChannelArguments) (k : String) (out : String) :
    Bool × String :=
  match mapFind a.string_args k with
  | some v => (true, v)
  | none => (false, out)

def ChannelArguments.getPointer (a : ChannelArguments) (k : String) (out : Nat) :
    Bool × Nat :=
  match mapFind a.pointer_args k with
  | some v => (true, v)
  | none => (false, out)

/-! ## gRPC message framing (channel.cpp lines 239-247)

The code resizes a buffer to 5+n bytes, writes the compression flag 0 at
offset 0, memcpys the four bytes of htonl(uint32(n)) at offset 1 and the
payload at offset 5. Byte strings are List Nat; htonl on a little-endian or
big-endian host followed by memcpy always lays the length out big-endian.
-/

def htonlBytes (n : Nat) : List Nat :=
  [n / 16777216 % 256, n / 65536 % 256, n / 256 % 256, n % 256]

/-- memcpy(&buf[i], src, src.len) on a buffer of sufficient size. -/
def memcpyAt (buf : List Nat) (i : Nat) (src : List Nat) : List Nat :=
  buf.take i ++ src ++ buf.drop (i + src.length)

def grpcFrame (p : List Nat) : List Nat :=
  let buf := List.replicate (5 + p.length) 0
  let buf := buf.set 0 0
  let buf := memcpyAt buf 1 (htonlBytes (p.length % 4294967296))
  memcpyAt buf 5 p

/-! ## Channel state and the transport boundary (channel.cpp)

The Http2Client transport is abstracted by the outcome of its observable
calls: IsConnected, Connect (its result Status) and SendRequest (its result
Status and the Http2Response it fills in). The model counts transport calls
and records the header map and framed body handed to SendRequest, which is
exactly what a transport mock would observe.
-/

structure Http2Response where
  status_code : Int := 0
  headers : List (String × String) := []
  body : List Nat := []
deriving DecidableEq, Repr

structure Transport where
  isConnected : Bool
  connectResult : Status
  sendResult : Status
  response : Http2Response
deriving DecidableEq, Repr

structure Channel where
  target : String
  credsSecure : Bool
  connected : Bool
  host : String := ""
  port : Int := 0
  useSsl : Bool := false
deriving DecidableEq, Repr

inductive ConnectOutcome where
  | ok (ch : Channel) (calls : Nat)
  | err (s : Status) (calls : Nat)
  | exn (e : String) (calls : Nat)
deriving DecidableEq, Repr

/-- LiteGrpcChannel::Connect (channel.cpp lines 102-131): no-op if the
connected flag is set; otherwise ParseTarget, then one transport Connect
call. `calls` counts transport Connect calls. -/
def channelConnect (ch : Channel) (tr : Transport) : ConnectOutcome :=
  if ch.connected then ConnectOutcome.ok ch 0
  else
    match parseTarget ch.credsSecure ch.target with
    | ParseOutcome.err s => ConnectOutcome.err s 0
    | ParseOutcome.exn e => ConnectOutcome.exn e 0
    | ParseOutcome.ok host port ssl =>
      if (tr.connectResult).ok then
        ConnectOutcome.ok
          { ch with connected := true, host := host, port := port, useSsl := ssl } 1
      else ConnectOutcome.err tr.connectResult 1

/-- The connection step at the top of ExecuteRequest (channel.cpp lines
199-205): IsConnected() is the conjunction of the channel flag and the
transport flag; Connect() is invoked only when that conjunction fails. -/
def ensureConnected (ch : Channel) (tr : Transport) : ConnectOutcome :=
  if ch.connected && tr.isConnected then ConnectOutcome.ok ch 0
  else channelConnect ch tr

/-- context && context->IsExpired() (channel.cpp line 208). -/
def ctxExpired : Option ClientContext → Bool
  | none => false
  | some c => c.expired

/-- Header preparation in ExecuteRequest (channel.cpp lines 212-237): three
fixed headers, the :authority pseudo-header from the connection host:port,
then every metadata entry verbatim, then the context authority and
user-agent-prefix overrides. -/
def buildHeaders (host : String) (port : Int) (ctx : Option ClientContext) :
    List (String × String) :=
  let h := mapInsert [] "content-type" "application/grpc+proto"
  let h := mapInsert h "te" "trailers"
  let h := mapInsert h "user-agent" "LiteGRPC/1.0"
  let h := mapInsert h ":authority" (host ++ ":" ++ toString port)
  match ctx with
  | none => h
  | some c =>
    let h := c.metadata.foldl (fun acc kv => mapInsert acc kv.1 kv.2) h
    let h := if c.authority = "" then h else mapInsert h ":authority" c.authority
    if c.uaPrefixVal = "" then h
    else mapInsert h "user-agent" (c.uaPrefixVal ++ " " ++ "LiteGRPC/1.0")

inductive ExecStatus where
  | ret (s : Status)
  | exn (e : String)
deriving DecidableEq, Repr

/-- Trailer inspection at the end of ExecuteRequest (channel.cpp lines
271-285): find grpc-status, std::stoi it (exn when that throws), and when
non-zero build a Status from the value cast to StatusCode and the
grpc-message trailer, defaulting to "Unknown gRPC error". -/
def extractTrailerStatus (headers : List (String × String)) : ExecStatus :=
  match mapFind headers "grpc-status" with
  | none => ExecStatus.ret Status.OK
  | some raw =>
    match stoi raw with
    | Except.error e => ExecStatus.exn e
    | Except.ok n =>
      if n ≠ 0 then
        let msg :=
          match mapFind headers "grpc-message" with
          | some m => m
          | none => "Unknown gRPC error"
        ExecStatus.ret ⟨n, msg⟩
      else ExecStatus.ret Status.OK

structure ExecResult where
  outcome : ExecStatus
  responseData : Option (List Nat)
  connectCalls : Nat
  sendCalls : Nat
  sentPath : Option String
  sentHeaders : Option (List (String × String))
  sentBody : Option (List Nat)
deriving DecidableEq, Repr

/-- LiteGrpcChannel::ExecuteRequest (channel.cpp lines 193-286), in the order
the code performs the steps: ensure connection, deadline check, header
preparation, gRPC framing, transport SendRequest, HTTP status check, minimum
frame check, frame-header strip into the response out-parameter, trailer
status extraction. -/
def executeRequest (ch : Channel) (tr : Transport) (ctx : Option ClientContext)
    (method : String) (requestData : List Nat) : ExecResult :=
  match ensureConnected ch tr with
  | ConnectOutcome.err s n => ⟨ExecStatus.ret s, none, n, 0, none, none, none⟩
  | ConnectOutcome.exn e n => ⟨ExecStatus.exn e, none, n, 0, none, none, none⟩
  | ConnectOutcome.ok ch2 n =>
    if ctxExpired ctx then
      ⟨ExecStatus.ret (Status.deadlineExceeded "Request deadline exceeded"),
        none, n, 0, none, none, none⟩
    else
      let headers := buildHeaders ch2.host ch2.port ctx
      let msg := grpcFrame requestData
      if !(tr.sendResult).ok then
        ⟨ExecStatus.ret tr.sendResult, none, n, 1, some method, some headers, some msg⟩
      else if tr.response.status_code ≠ 200 then
        ⟨ExecStatus.ret
            (Status.internal ("HTTP error: " ++ toString tr.response.status_code)),
          none, n, 1, some method, some headers, some msg⟩
      else if tr.response.body.length < 5 then
        ⟨ExecStatus.ret (Status.internal "Invalid gRPC response format"),
          none, n, 1, some method, some headers, some msg⟩
      else
        let rd := tr.response.body.drop 5
        match extractTrailerStatus tr.response.headers with
        | ExecStatus.ret s =>
          ⟨ExecStatus.ret s, some rd, n, 1, some method, some headers, some msg⟩
        | ExecStatus.exn e =>
          ⟨ExecStatus.exn e, some rd, n, 1, some method, some headers, some msg⟩

/-! ## The HTTP/2 event loop (http2_client.cpp lines 576-612)

Http2Client::ProcessEvents drives an nghttp2 session: each iteration sends
pending engine data, stops when the engine wants neither to read nor to
write, performs one blocking receive when it wants to read, and gives up
after a fixed budget of 100 iterations. The nghttp2 session together with
the socket is abstracted as a state type with the four operations the loop
uses. The while loop is embedded with explicit fuel, where fuel plus the
iteration counter always equals the 100 budget, so `processEvents` enters
the loop body exactly as long as iteration_count < 100.
-/

structure Engine (σ : Type) where
  sendData : σ → Status × σ
  wantRead : σ → Bool
  wantWrite : σ → Bool
  receiveData : σ → Status × σ

/-- Loop body and post-loop budget check of ProcessEvents. Returns the Status
result together with the final value of iteration_count. -/
def processEventsAux {σ : Type} (E : Engine σ) :
    Nat → Nat → σ → Status × Nat
  | 0, count, _ =>
    (Status.internal "ProcessEvents exceeded maximum iterations", count)
  | fuel + 1, count, s =>
    let c2 := count + 1
    let r := E.sendData s
    if !(r.1).ok then (r.1, c2)
    else if E.wantRead r.2 = false ∧ E.wantWrite r.2 = false then
      (if 100 ≤ c2 then Status.internal "ProcessEvents exceeded maximum iterations"
       else Status.OK, c2)
    else if E.wantRead r.2 then
      let r2 := E.receiveData r.2
      if !(r2.1).ok then (r2.1, c2)
      else processEventsAux E fuel c2 r2.2
    else processEventsAux E fuel c2 r.2

def processEvents {σ : Type} (E : Engine σ) (s : σ) : Status × Nat :=
  processEventsAux E 100 0 s

/-! ## Helper lemmas and claim theorems -/

theorem mapFind_mapInsert {α : Type} (m : List (String × α)) (k k2 : String) (v : α) :
    mapFind (mapInsert m k v) k2 = if k2 = k then some v else mapFind m k2 := by
  induction m with
  | nil =>
    by_cases h : k2 = k
    · subst h; simp [mapInsert, mapFind]
    · have h2 : ¬(k = k2) := fun hh => h hh.symm
      simp [mapInsert, mapFind, h, h2]
  | cons p rest ih =>
    obtain ⟨k3, v3⟩ := p
    by_cases h3 : k3 = k
    · subst h3
      by_cases h : k2 = k3
      · subst h; simp [mapInsert, mapFind]
      · have h2 : ¬(k3 = k2) := fun hh => h hh.symm
        simp [mapInsert, mapFind, h, h2]
    · by_cases h32 : k3 = k2
      · subst h32
        simp [mapInsert, mapFind, h3]
      · simp [mapInsert, mapFind, h3, h32, ih]

theorem mapFind_mapInsert_self {α : Type} (m : List (String × α)) (k : String) (v : α) :
    mapFind (mapInsert m k v) k = some v := by
  simp [mapFind_mapInsert]

/-- C2 counterexample: the target "bad target!!" does NOT fail the implemented
grammar. The host group of the regex is any nonempty colon-free run, which
spaces and exclamation marks satisfy, so ParseTarget succeeds with host
"bad target!!" and the default port instead of returning InvalidArgument. -/
theorem parseTarget_bad_target_cex :
    parseTarget false "bad target!!" = ParseOutcome.ok "bad target!!" 80 false := by
  decide

/-- C2 (amended): target parsing is total and deterministic; for every
credentials flag, "example.com:443" parses to (example.com, 443, inherited
ssl flag) and "https://foo:8443" to (foo, 8443, ssl true); "bad target!!"
parses successfully as a host; targets that do fail the regex, such as an
empty host or an unknown scheme, return InvalidArgument. -/
theorem parseTarget_examples (secure : Bool) :
    parseTarget secure "example.com:443" = ParseOutcome.ok "example.com" 443 secure ∧
    parseTarget secure "https://foo:8443" = ParseOutcome.ok "foo" 8443 true ∧
    parseTarget secure "bad target!!" =
      ParseOutcome.ok "bad target!!" (if secure then 443 else 80) secure ∧
    parseTarget secure ":443" =
      ParseOutcome.err (Status.invalidArgument "Invalid target format: :443") ∧
    parseTarget secure "ftp://x" =
      ParseOutcome.err (Status.invalidArgument "Unsupported scheme: ftp") := by
  cases secure <;> decide

/-- C3: the error path is NOT exception free. std::stoi throws out_of_range
inside ParseTarget on a grammar-conforming target whose port digits exceed
int range, and throws invalid_argument inside ExecuteRequest when the
grpc-status trailer supplied by the server is not numeric; both exceptions
escape instead of being returned as a Status value. -/
theorem stoi_exception_reachable :
    parseTarget true "h:9999999999" = ParseOutcome.exn "out_of_range" ∧
    (executeRequest
      { target := "example.com:50051", credsSecure := false, connected := true,
        host := "example.com", port := 50051 }
      { isConnected := true, connectResult := Status.OK, sendResult := Status.OK,
        response := { status_code := 200, headers := [("grpc-status", "abc")],
                      body := [0, 0, 0, 0, 0] } }
      (some {}) "/pkg.Svc/M" []).outcome = ExecStatus.exn "invalid_argument" := by
  decide

theorem grpcFrame_eq (p : List Nat) (h : p.length < 4294967296) :
    grpcFrame p = 0 :: (htonlBytes p.length ++ p) := by
  have hn : p.length % 4294967296 = p.length := Nat.mod_eq_of_lt h
  have hrep : List.replicate (5 + p.length) (0 : Nat) =
      [0, 0, 0, 0, 0] ++ List.replicate p.length 0 := by
    rw [List.replicate_add]; rfl
  simp only [grpcFrame, memcpyAt, hn, hrep, htonlBytes]
  simp [List.take_append_eq_append_take, List.drop_append_eq_append_drop,
    List.replicate_succ]
  omega

/-- C4: for every payload below the uint32 bound, framing yields 5+|p| bytes:
flag byte 0, then the four htonl length bytes, then the payload; the four
length bytes recompose big-endian to |p|. -/
theorem grpcFrame_spec (p : List Nat) (h : p.length < 4294967296) :
    (grpcFrame p).length = 5 + p.length ∧
    (grpcFrame p).take 1 = [0] ∧
    ((grpcFrame p).drop 1).take 4 = htonlBytes p.length ∧
    (grpcFrame p).drop 5 = p ∧
    p.length / 16777216 % 256 * 16777216 + p.length / 65536 % 256 * 65536 +
      p.length / 256 % 256 * 256 + p.length % 256 = p.length := by
  rw [grpcFrame_eq p h]
  refine ⟨by simp [htonlBytes]; omega, by simp [htonlBytes], by simp [htonlBytes],
    by simp [htonlBytes], by omega⟩

/-- C4 witness: the payload "ping" (bytes 70 69 6e 67) frames to exactly
00 00 00 00 04 70 69 6e 67, of length 5+4. -/
theorem grpcFrame_spec_wit :
    grpcFrame [112, 105, 110, 103] = [0, 0, 0, 0, 4, 112, 105, 110, 103] ∧
    (grpcFrame [112, 105, 110, 103]).length = 5 + 4 := by
  refine ⟨by decide, ?_⟩
  have h := grpcFrame_spec [112, 105, 110, 103] (by decide)
  simpa using h.1

/-- C7: Status::ToString renders "OK" for every Status whose code is OK
(whatever the message), and renders Status(NAME) or Status(NAME, "message")
for every status code of the gRPC taxonomy, where NAME is the symbolic name
the spec lists for that code. -/
theorem status_tostring_claim :
    (∀ m : String, (Status.mk 0 m).ToString = "OK") ∧
    (∀ (s : Status) (n : String), (s.code, n) ∈ specCodeNames →
      s.ToString =
        "Status(" ++ n ++
          (if s.message = "" then "" else ", \"" ++ s.message ++ "\"") ++ ")") := by
  constructor
  · intro m
    simp [Status.ToString, Status.ok]
  · rintro ⟨c, msg⟩ n hmem
    simp only [specCodeNames, List.mem_cons, List.not_mem_nil, or_false,
      Prod.mk.injEq] at hmem
    rcases hmem with ⟨h1, h2⟩ | ⟨h1, h2⟩ | ⟨h1, h2⟩ | ⟨h1, h2⟩ | ⟨h1, h2⟩ |
      ⟨h1, h2⟩ | ⟨h1, h2⟩ | ⟨h1, h2⟩ | ⟨h1, h2⟩ | ⟨h1, h2⟩ | ⟨h1, h2⟩ |
      ⟨h1, h2⟩ | ⟨h1, h2⟩ | ⟨h1, h2⟩ | ⟨h1, h2⟩ | ⟨h1, h2⟩ <;>
    subst h1 <;> subst h2 <;> simp [Status.ToString, Status.ok, switchCodeName]

/-- C7 witness: Status(5, "missing") renders with the symbolic NOT_FOUND name,
and an OK status with a nonempty message still renders exactly "OK". -/
theorem status_tostring_claim_wit :
    (Status.mk 0 "ignored").ToString = "OK" ∧
    (Status.mk 5 "missing").ToString = "Status(NOT_FOUND, \"missing\")" := by
  refine ⟨status_tostring_claim.1 "ignored", ?_⟩
  have h := status_tostring_claim.2 (Status.mk 5 "missing") "NOT_FOUND" (by decide)
  simpa using h

/-- C9: ChannelArguments round-trips every set through the matching get of
the same type namespace; a key absent from a namespace reports found=false
and leaves the out location untouched; and the int, string and pointer
namespaces are fully independent of one another. -/
theorem channelArguments_roundtrip :
    (∀ (a : ChannelArguments) (k : String) (v out : Int),
      (a.setInt k v).getInt k out = (true, v)) ∧
    (∀ (a : ChannelArguments) (k v out : String),
      (a.setString k v).getString k out = (true, v)) ∧
    (∀ (a : ChannelArguments) (k : String) (v out : Nat),
      (a.setPointer k v).getPointer k out = (true, v)) ∧
    (∀ (a : ChannelArguments) (k : String) (out : Int),
      mapFind a.int_args k = none → a.getInt k out = (false, out)) ∧
    (∀ (a : ChannelArguments) (k : String) (out : String),
      mapFind a.string_args k = none → a.getString k out = (false, out)) ∧
    (∀ (a : ChannelArguments) (k : String) (out : Nat),
      mapFind a.pointer_args k = none → a.getPointer k out = (false, out)) ∧
    (∀ (a : ChannelArguments) (k : String) (v : Int) (k2 : String),
      (∀ out, ((a.setInt k v).getString k2 out = a.getString k2 out)) ∧
      (∀ out, ((a.setInt k v).getPointer k2 out = a.getPointer k2 out))) ∧
    (∀ (a : ChannelArguments) (k v : String) (k2 : String),
      (∀ out, ((a.setString k v).getInt k2 out = a.getInt k2 out)) ∧
      (∀ out, ((a.setString k v).getPointer k2 out = a.getPointer k2 out))) ∧
    (∀ (a : ChannelArguments) (k : String) (v : Nat) (k2 : String),
      (∀ out, ((a.setPointer k v).getInt k2 out = a.getInt k2 out)) ∧
      (∀ out, ((a.setPointer k v).getString k2 out = a.getString k2 out))) := by
  refine ⟨?_, ?_, ?_, ?_, ?_, ?_, ?_, ?_, ?_⟩
  · intro a k v out
    simp [ChannelArguments.setInt, ChannelArguments.getInt, mapFind_mapInsert_self]
  · intro a k v out
    simp [ChannelArguments.setString, ChannelArguments.getString, mapFind_mapInsert_self]
  · intro a k v out
    simp [ChannelArguments.setPointer, ChannelArguments.getPointer, mapFind_mapInsert_self]
  · intro a k out h
    simp [ChannelArguments.getInt, h]
  · intro a k out h
    simp [ChannelArguments.getString, h]
  · intro a k out h
    simp [ChannelArguments.getPointer, h]
  · intro a k v k2
    exact ⟨fun out => rfl, fun out => rfl⟩
  · intro a k v k2
    exact ⟨fun out => rfl, fun out => rfl⟩
  · intro a k v k2
    exact ⟨fun out => rfl, fun out => rfl⟩

/-- C9 witness: a concrete set/get round-trip on the keepalive key, a miss on
an unset key leaving the out value 7 untouched, and a string lookup that
stays not-found after an int set of the same key. -/
theorem channelArguments_roundtrip_wit :
    ((ChannelArguments.mk [] [] []).setInt "grpc.keepalive_time_ms" 30000).getInt
        "grpc.keepalive_time_ms" 0 = (true, 30000) ∧
    (ChannelArguments.mk [] [] []).getInt "grpc.keepalive_time_ms" 7 = (false, 7) ∧
    ((ChannelArguments.mk [] [] []).setInt "k" 1).getString "k" "untouched" =
      (false, "untouched") := by
  refine ⟨channelArguments_roundtrip.1 _ _ _ _,
    channelArguments_roundtrip.2.2.2.1 _ _ _ (by decide), ?_⟩
  rw [(channelArguments_roundtrip.2.2.2.2.2.2.1 (ChannelArguments.mk [] [] []) "k" 1 "k").1]
  exact channelArguments_roundtrip.2.2.2.2.1 _ _ _ (by decide)

/-- C1 counterexample: on a channel that is not yet connected, ExecuteRequest
with an already-expired context performs one transport Connect call before
the deadline check, so the transport call count is 1, not 0, even though the
returned status is DeadlineExceeded. -/
theorem exec_deadline_not_connected_cex :
    (executeRequest
      { target := "example.com:50051", credsSecure := false, connected := false }
      { isConnected := false, connectResult := Status.OK, sendResult := Status.OK,
        response := {} }
      (some { expired := true }) "/pkg.Svc/M" []).outcome =
        ExecStatus.ret (Status.deadlineExceeded "Request deadline exceeded") ∧
    (executeRequest
      { target := "example.com:50051", credsSecure := false, connected := false }
      { isConnected := false, connectResult := Status.OK, sendResult := Status.OK,
        response := {} }
      (some { expired := true }) "/pkg.Svc/M" []).connectCalls = 1 := by
  decide

/-- C1 (amended): when the channel connected flag is already set, an
ExecuteRequest whose context is expired returns DeadlineExceeded and performs
zero transport calls: no connect, no send, no receive; when the flag is not
set, a connect is attempted before the deadline check. -/
theorem exec_deadline_connected (ch : Channel) (tr : Transport)
    (c : ClientContext) (method : String) (d : List Nat)
    (hconn : ch.connected = true) (hexp : c.expired = true) :
    (executeRequest ch tr (some c) method d).outcome =
      ExecStatus.ret (Status.deadlineExceeded "Request deadline exceeded") ∧
    (executeRequest ch tr (some c) method d).connectCalls = 0 ∧
    (executeRequest ch tr (some c) method d).sendCalls = 0 := by
  have he : ensureConnected ch tr = ConnectOutcome.ok ch 0 := by
    cases htr : tr.isConnected <;>
      simp [ensureConnected, channelConnect, hconn, htr]
  refine ⟨?_, ?_, ?_⟩ <;> simp [executeRequest, he, ctxExpired, hexp]

/-- C1 witness: a concrete connected channel with an expired context. -/
theorem exec_deadline_connected_wit :
    (executeRequest
      { target := "example.com:50051", credsSecure := false, connected := true,
        host := "example.com", port := 50051 }
      { isConnected := true, connectResult := Status.OK, sendResult := Status.OK,
        response := {} }
      (some { expired := true }) "/pkg.Svc/M" []).connectCalls = 0 ∧
    (executeRequest
      { target := "example.com:50051", credsSecure := false, connected := true,
        host := "example.com", port := 50051 }
      { isConnected := true, connectResult := Status.OK, sendResult := Status.OK,
        response := {} }
      (some { expired := true }) "/pkg.Svc/M" []).sendCalls = 0 :=
  ⟨(exec_deadline_connected _ _ _ _ _ rfl rfl).2.1,
   (exec_deadline_connected _ _ _ _ _ rfl rfl).2.2⟩

theorem ensureConnected_connected (ch : Channel) (tr : Transport)
    (h : ch.connected = true) : ensureConnected ch tr = ConnectOutcome.ok ch 0 := by
  cases htr : tr.isConnected <;>
    simp [ensureConnected, channelConnect, h, htr]

/-- C5: on a completed 200 exchange with a well-formed frame, a numeric
non-zero grpc-status trailer n makes ExecuteRequest return a Status whose
code is exactly n and whose message is the grpc-message trailer value,
defaulting to "Unknown gRPC error" when that trailer is absent; an absent
grpc-status trailer, or one that parses to 0, leaves the OK result
unchanged. -/
theorem trailer_status_mapping (ch : Channel) (tr : Transport)
    (c : ClientContext) (method : String) (d : List Nat)
    (hconn : ch.connected = true) (hexp : c.expired = false)
    (hsend : tr.sendResult = Status.OK)
    (hcode : tr.response.status_code = 200)
    (hlen : 5 ≤ tr.response.body.length) :
    (∀ v n, mapFind tr.response.headers "grpc-status" = some v →
      stoi v = Except.ok n → n ≠ 0 →
      (executeRequest ch tr (some c) method d).outcome =
        ExecStatus.ret
          ⟨n, (mapFind tr.response.headers "grpc-message").getD "Unknown gRPC error"⟩) ∧
    (mapFind tr.response.headers "grpc-status" = none →
      (executeRequest ch tr (some c) method d).outcome = ExecStatus.ret Status.OK) ∧
    (∀ v, mapFind tr.response.headers "grpc-status" = some v →
      stoi v = Except.ok 0 →
      (executeRequest ch tr (some c) method d).outcome = ExecStatus.ret Status.OK) := by
  have he := ensureConnected_connected ch tr hconn
  have hnl : ¬(tr.response.body.length < 5) := by omega
  refine ⟨?_, ?_, ?_⟩
  · intro v n hv hs hn
    simp [executeRequest, he, ctxExpired, hexp, hsend, Status.OK, Status.ok,
      hcode, hnl, extractTrailerStatus, hv, hs, hn]
    cases mapFind tr.response.headers "grpc-message" <;> simp
  · intro hv
    simp [executeRequest, he, ctxExpired, hexp, hsend, Status.OK, Status.ok,
      hcode, hnl, extractTrailerStatus, hv]
  · intro v hv hs
    simp [executeRequest, he, ctxExpired, hexp, hsend, Status.OK, Status.ok,
      hcode, hnl, extractTrailerStatus, hv, hs]

/-- C5 witness: trailers grpc-status=5, grpc-message=missing on a completed
200 exchange yield Status(5 = NOT_FOUND, "missing"). -/
theorem trailer_status_mapping_wit :
    (executeRequest
      { target := "example.com:50051", credsSecure := false, connected := true,
        host := "example.com", port := 50051 }
      { isConnected := true, connectResult := Status.OK, sendResult := Status.OK,
        response := { status_code := 200,
                      headers := [("grpc-status", "5"), ("grpc-message", "missing")],
                      body := [0, 0, 0, 0, 0] } }
      (some {}) "/pkg.Svc/M" []).outcome =
        ExecStatus.ret (Status.mk 5 "missing") := by
  have h := (trailer_status_mapping
    { target := "example.com:50051", credsSecure := false, connected := true,
      host := "example.com", port := 50051 }
    { isConnected := true, connectResult := Status.OK, sendResult := Status.OK,
      response := { status_code := 200,
                    headers := [("grpc-status", "5"), ("grpc-message", "missing")],
                    body := [0, 0, 0, 0, 0] } }
    {} "/pkg.Svc/M" [] rfl rfl rfl rfl (by decide)).1 "5" 5 (by decide) rfl
    (by decide)
  simpa using h

/-- C6: once the exchange completes, a non-200 HTTP status yields Internal
with the HTTP code embedded in the message and no response payload; a 200
response shorter than the 5-byte minimum frame yields Internal (invalid
response format) and no payload; otherwise the 5-byte frame header is
stripped and exactly the remaining body bytes are handed back. -/
theorem http_response_handling (ch : Channel) (tr : Transport)
    (c : ClientContext) (method : String) (d : List Nat)
    (hconn : ch.connected = true) (hexp : c.expired = false)
    (hsend : tr.sendResult = Status.OK) :
    (tr.response.status_code ≠ 200 →
      (executeRequest ch tr (some c) method d).outcome =
        ExecStatus.ret
          (Status.internal ("HTTP error: " ++ toString tr.response.status_code)) ∧
      (executeRequest ch tr (some c) method d).responseData = none) ∧
    (tr.response.status_code = 200 → tr.response.body.length < 5 →
      (executeRequest ch tr (some c) method d).outcome =
        ExecStatus.ret (Status.internal "Invalid gRPC response format") ∧
      (executeRequest ch tr (some c) method d).responseData = none) ∧
    (tr.response.status_code = 200 → 5 ≤ tr.response.body.length →
      (executeRequest ch tr (some c) method d).responseData =
        some (tr.response.body.drop 5)) := by
  have he := ensureConnected_connected ch tr hconn
  refine ⟨?_, ?_, ?_⟩
  · intro h200
    refine ⟨?_, ?_⟩ <;>
      simp [executeRequest, he, ctxExpired, hexp, hsend, Status.OK, Status.ok, h200]
  · intro h200 hshort
    refine ⟨?_, ?_⟩ <;>
      simp [executeRequest, he, ctxExpired, hexp, hsend, Status.OK, Status.ok,
        h200, hshort]
  · intro h200 hlen
    have hnl : ¬(tr.response.body.length < 5) := by omega
    cases hts : extractTrailerStatus tr.response.headers <;>
      simp [executeRequest, he, ctxExpired, hexp, hsend, Status.OK, Status.ok,
        h200, hnl, hts]

/-- C6 witness: an HTTP 404 response maps to Internal("HTTP error: 404"),
and a 200 response with body 00 00 00 00 02 61 62 hands back the two payload
bytes 61 62. -/
theorem http_response_handling_wit :
    (executeRequest
      { target := "example.com:50051", credsSecure := false, connected := true,
        host := "example.com", port := 50051 }
      { isConnected := true, connectResult := Status.OK, sendResult := Status.OK,
        response := { status_code := 404, headers := [], body := [] } }
      (some {}) "/pkg.Svc/M" []).outcome =
        ExecStatus.ret (Status.internal "HTTP error: 404") ∧
    (executeRequest
      { target := "example.com:50051", credsSecure := false, connected := true,
        host := "example.com", port := 50051 }
      { isConnected := true, connectResult := Status.OK, sendResult := Status.OK,
        response := { status_code := 200, headers := [],
                      body := [0, 0, 0, 0, 2, 97, 98] } }
      (some {}) "/pkg.Svc/M" []).responseData = some [97, 98] := by
  constructor
  · have h := ((http_response_handling
      { target := "example.com:50051", credsSecure := false, connected := true,
        host := "example.com", port := 50051 }
      { isConnected := true, connectResult := Status.OK, sendResult := Status.OK,
        response := { status_code := 404, headers := [], body := [] } }
      {} "/pkg.Svc/M" [] rfl rfl rfl).1 (by decide)).1
    simpa using h
  · have h := (http_response_handling
      { target := "example.com:50051", credsSecure := false, connected := true,
        host := "example.com", port := 50051 }
      { isConnected := true, connectResult := Status.OK, sendResult := Status.OK,
        response := { status_code := 200, headers := [],
                      body := [0, 0, 0, 0, 2, 97, 98] } }
      {} "/pkg.Svc/M" [] rfl rfl rfl).2.2 rfl (by decide)
    simpa using h

theorem mapFind_foldl_nmem (l : List (String × String)) (k : String)
    (hnm : ∀ p ∈ l, p.1 ≠ k) :
    ∀ h0, mapFind (l.foldl (fun acc kv => mapInsert acc kv.1 kv.2) h0) k =
      mapFind h0 k := by
  induction l with
  | nil => intro h0; rfl
  | cons e t ih =>
    intro h0
    have he : e.1 ≠ k := hnm e (List.mem_cons_self e t)
    have hk : ¬(k = e.1) := fun hh => he hh.symm
    rw [List.foldl_cons, ih (fun p hp => hnm p (List.mem_cons_of_mem e hp))]
    simp [mapFind_mapInsert, hk]

theorem mapFind_foldl_mem (l : List (String × String)) (k : String) (v : String)
    (hnd : (l.map Prod.fst).Nodup) (hf : mapFind l k = some v) :
    ∀ h0, mapFind (l.foldl (fun acc kv => mapInsert acc kv.1 kv.2) h0) k =
      some v := by
  induction l with
  | nil => simp [mapFind] at hf
  | cons e t ih =>
    obtain ⟨k1, v1⟩ := e
    intro h0
    rw [List.foldl_cons]
    by_cases hek : k1 = k
    · subst hek
      have hv : v1 = v := by simpa [mapFind] using hf
      have hndc : (k1 :: t.map Prod.fst).Nodup := by simpa using hnd
      have hnin : k1 ∉ t.map Prod.fst := (List.nodup_cons.mp hndc).1
      have hnm : ∀ p ∈ t, p.1 ≠ k1 := by
        intro p hp hc
        exact hnin (hc ▸ List.mem_map_of_mem Prod.fst hp)
      rw [mapFind_foldl_nmem t k1 hnm]
      simp [mapFind_mapInsert_self, hv]
    · have hf2 : mapFind t k = some v := by simpa [mapFind, hek] using hf
      have hndc : (k1 :: t.map Prod.fst).Nodup := by simpa using hnd
      exact ih (List.nodup_cons.mp hndc).2 hf2 (mapInsert h0 k1 v1)

/-- C8 counterexample: a metadata entry added under the key X-Key is sent
under X-Key, not under its lower-cased form x-key: the header map that
ExecuteRequest builds has no binding for x-key. -/
theorem metadata_lowercase_cex :
    mapFind (buildHeaders "h" 80 (some { metadata := [("X-Key", "v")] })) "x-key" =
      none ∧
    mapFind (buildHeaders "h" 80 (some { metadata := [("X-Key", "v")] })) "X-Key" =
      some "v" := by
  decide

/-- C8 (amended): metadata keys are transmitted verbatim, with no lower-casing:
every metadata entry appears in the sent header map under exactly the key it
was added with (later AddMetadata calls on the same key overwriting earlier
ones), except that the :authority and user-agent headers can be overridden by
the dedicated context fields. -/
theorem metadata_sent_verbatim :
    (∀ (host : String) (port : Int) (c : ClientContext) (k v : String),
      (c.metadata.map Prod.fst).Nodup → mapFind c.metadata k = some v →
      k ≠ ":authority" → k ≠ "user-agent" →
      mapFind (buildHeaders host port (some c)) k = some v) ∧
    (∀ (c : ClientContext) (k v1 v2 : String),
      mapFind (((c.addMetadata k v1).addMetadata k v2).metadata) k = some v2) := by
  constructor
  · intro host port c k v hnd hf hka hku
    have hka2 : ¬(k = ":authority") := hka
    have hku2 : ¬(k = "user-agent") := hku
    simp only [buildHeaders]
    have hfold := mapFind_foldl_mem c.metadata k v hnd hf
    split_ifs <;> simp [mapFind_mapInsert, hka2, hku2, hfold]
  · intro c k v1 v2
    simp [ClientContext.addMetadata, mapFind_mapInsert_self]

/-- C8 witness: the concrete key X-Key with value v is found verbatim in the
built header map, and a second AddMetadata on the same key wins. -/
theorem metadata_sent_verbatim_wit :
    mapFind (buildHeaders "h" 80 (some { metadata := [("X-Key", "v")] })) "X-Key" =
      some "v" ∧
    mapFind ((({ } : ClientContext).addMetadata "k" "a" |>.addMetadata "k" "b").metadata)
      "k" = some "b" :=
  ⟨metadata_sent_verbatim.1 "h" 80 { metadata := [("X-Key", "v")] } "X-Key" "v"
      (by decide) (by decide) (by decide) (by decide),
   metadata_sent_verbatim.2 { } "k" "a" "b"⟩

theorem processEventsAux_spec {σ : Type} (E : Engine σ) :
    ∀ (fuel count : Nat) (s : σ), count + fuel ≤ 100 →
      (processEventsAux E fuel count s).2 ≤ 100 ∧
      (((processEventsAux E fuel count s).1).ok = true →
        ∃ s2, E.wantRead s2 = false ∧ E.wantWrite s2 = false) ∧
      (((processEventsAux E fuel count s).1).ok = false →
        (processEventsAux E fuel count s).1 =
            Status.internal "ProcessEvents exceeded maximum iterations" ∨
        (∃ s2, (E.sendData s2).1 = (processEventsAux E fuel count s).1) ∨
        (∃ s2, (E.receiveData s2).1 = (processEventsAux E fuel count s).1)) := by
  intro fuel
  induction fuel with
  | zero =>
    intro count s h
    refine ⟨by simpa [processEventsAux] using h, ?_, ?_⟩
    · intro hok
      simp [processEventsAux, Status.internal, Status.ok] at hok
    · intro _
      left
      rfl
  | succ f ih =>
    intro count s h
    by_cases h1 : (E.sendData s).1.ok = true
    · by_cases h2 : E.wantRead (E.sendData s).2 = false ∧
          E.wantWrite (E.sendData s).2 = false
      · have hres : processEventsAux E (f + 1) count s =
            (if 100 ≤ count + 1 then
                Status.internal "ProcessEvents exceeded maximum iterations"
              else Status.OK, count + 1) := by
          simp [processEventsAux, h1, h2]
        rw [hres]
        by_cases h3 : 100 ≤ count + 1
        · refine ⟨by simpa using by omega, ?_, ?_⟩
          · intro hok
            simp [h3, Status.internal, Status.ok] at hok
          · intro _
            left
            simp [h3]
        · refine ⟨by simpa using by omega, ?_, ?_⟩
          · intro _
            exact ⟨(E.sendData s).2, h2.1, h2.2⟩
          · intro hok
            simp [h3, Status.OK, Status.ok] at hok
      · by_cases h3 : E.wantRead (E.sendData s).2 = true
        · by_cases h4 : (E.receiveData (E.sendData s).2).1.ok = true
          · have hres : processEventsAux E (f + 1) count s =
                processEventsAux E f (count + 1) (E.receiveData (E.sendData s).2).2 := by
              simp [processEventsAux, h1, h2, h3, h4]
            rw [hres]
            exact ih (count + 1) (E.receiveData (E.sendData s).2).2 (by omega)
          · have hres : processEventsAux E (f + 1) count s =
                ((E.receiveData (E.sendData s).2).1, count + 1) := by
              simp [processEventsAux, h1, h2, h3, h4]
            rw [hres]
            refine ⟨by simpa using by omega, ?_, ?_⟩
            · intro hok
              simp [hok] at h4
            · intro _
              exact Or.inr (Or.inr ⟨(E.sendData s).2, rfl⟩)
        · have hwr : E.wantRead (E.sendData s).2 = false := by
            cases hx : E.wantRead (E.sendData s).2
            · rfl
            · exact absurd hx h3
          have hww : ¬(E.wantWrite (E.sendData s).2 = false) :=
            fun hw => h2 ⟨hwr, hw⟩
          have hres : processEventsAux E (f + 1) count s =
              processEventsAux E f (count + 1) (E.sendData s).2 := by
            simp [processEventsAux, h1, hwr, hww]
          rw [hres]
          exact ih (count + 1) (E.sendData s).2 (by omega)
    · have hres : processEventsAux E (f + 1) count s =
          ((E.sendData s).1, count + 1) := by
        simp [processEventsAux, h1]
      rw [hres]
      refine ⟨by simpa using by omega, ?_, ?_⟩
      · intro hok
        simp [hok] at h1
      · intro _
        exact Or.inr (Or.inl ⟨s, rfl⟩)

/-- C10: the SendRequest event loop always terminates within the 100
iteration budget: the final iteration count never exceeds 100, an OK result
is only produced once the engine wants neither to read nor to write (the
exchange has completed), and every non-OK result is either the
budget-exhaustion Internal status or the failure Status of a sendData or
receiveData step. -/
theorem processEvents_bounded {σ : Type} (E : Engine σ) (s : σ) :
    (processEvents E s).2 ≤ 100 ∧
    (((processEvents E s).1).ok = true →
      ∃ s2, E.wantRead s2 = false ∧ E.wantWrite s2 = false) ∧
    (((processEvents E s).1).ok = false →
      (processEvents E s).1 =
          Status.internal "ProcessEvents exceeded maximum iterations" ∨
      (∃ s2, (E.sendData s2).1 = (processEvents E s).1) ∨
      (∃ s2, (E.receiveData s2).1 = (processEvents E s).1)) :=
  processEventsAux_spec E 100 0 s (by omega)

/-- C10 witness: an engine that completes immediately runs the loop once,
the OK result certifying a state with nothing left to read or write. -/
theorem processEvents_bounded_wit :
    (processEvents
      (Engine.mk (fun s => (Status.OK, s)) (fun _ => false) (fun _ => false)
        (fun s => (Status.OK, s)) : Engine Unit) ()).2 ≤ 100 ∧
    (∃ s2, (Engine.mk (fun s => (Status.OK, s)) (fun _ => false) (fun _ => false)
        (fun s => (Status.OK, s)) : Engine Unit).wantRead s2 = false ∧
      (Engine.mk (fun s => (Status.OK, s)) (fun _ => false) (fun _ => false)
        (fun s => (Status.OK, s)) : Engine Unit).wantWrite s2 = false) :=
  ⟨(processEvents_bounded _ ()).1,
   (processEvents_bounded
      (Engine.mk (fun s => (Status.OK, s)) (fun _ => false) (fun _ => false)
        (fun s => (Status.OK, s)) : Engine Unit) ()).2.1 (by decide)⟩
